import Mathlib

/-!
Shallow embedding of `src/components/ThreeScene.tsx` (the scroll-driven
3D animation component).  JavaScript numbers are modelled as real numbers;
`Math.sin`, `Math.cos` and `Math.PI` become `Real.sin`, `Real.cos` and
`Real.pi`.  The per-frame function `updateFromScroll` is embedded as a pure
state transformer on the refs it reads and writes (`modelRef`, `cameraRef`,
`targetValues`, `userData`), and the GLTF loader callbacks as transformers
on the load-time state.
-/

namespace ThreeScene

/-- A three.js `Vector3` / `Euler`: three real components. -/
structure Vec3 where
  x : ℝ
  y : ℝ
  z : ℝ

/-- The `targetValues` ref of `ThreeScene.tsx` (lines 14-23): per-frame
animation targets for rotation, camera distance, position, scale and hue. -/
structure TargetValues where
  rotationX : ℝ
  rotationY : ℝ
  rotationZ : ℝ
  cameraZ : ℝ
  positionX : ℝ
  positionY : ℝ
  scale : ℝ
  hue : ℝ

/-- Initial contents of the `targetValues` ref (lines 14-23). -/
noncomputable def initTargetValues : TargetValues :=
  { rotationX := 0
    rotationY := 0
    rotationZ := 0
    cameraZ := 5
    positionX := 0
    positionY := 0
    scale := 1
    hue := 0 }

/-- The `userData` slots written by `updateFromScroll` on its first run
(lines 184-191).  The four fields are written together in straight-line
code, so they are modelled as a single record; `none` at the `Option`
level models the state before any write (`undefined` in JavaScript). -/
structure Initials where
  initialRotationX : ℝ
  initialRotationY : ℝ
  initialRotationZ : ℝ
  initialCameraZ : ℝ

/-- The loaded GLTF group referenced by `modelRef`: its transform and its
`userData`. -/
structure Model where
  rotation : Vec3
  position : Vec3
  scale : Vec3
  userData : Option Initials

/-- The camera referenced by `cameraRef`; only its position is touched by
`updateFromScroll`. -/
structure Camera where
  position : Vec3

/-- The mutable state read and written by `updateFromScroll`: the two refs
it guards on and the `targetValues` ref it writes. -/
structure SceneState where
  modelRef : Option Model
  cameraRef : Option Camera
  targetValues : TargetValues

/-- Line 181: `const scrollProgress = maxScroll > 0 ? scrollY / maxScroll : 0`. -/
noncomputable def scrollProgress (scrollY maxScroll : ℝ) : ℝ :=
  if maxScroll > 0 then scrollY / maxScroll else 0

/-- Lines 198-215: the target values computed from the captured initial
rotation and the scroll progress.  `minZ = 2`, `maxZ = 6` (lines 203-204). -/
noncomputable def computeTargets (initialRotationX initialRotationY initialRotationZ : ℝ)
    (scrollP : ℝ) : TargetValues :=
  { rotationX := initialRotationX + scrollP * Real.pi * 2
    rotationY := initialRotationY + scrollP * Real.pi * 1.5
    rotationZ := initialRotationZ + scrollP * Real.pi * 1
    cameraZ := 2 + scrollP * (6 - 2)
    positionX := Real.sin (scrollP * Real.pi * 1.5) * 0.8
    positionY := Real.cos (scrollP * Real.pi * 2) * 0.6
    hue := scrollP * 0.8
    scale := 5 + Real.sin (scrollP * Real.pi * 1.5) * 1.5 }

/-- Lines 176-268: the body of `updateFromScroll`.  If either ref is null
the function does nothing.  Otherwise it computes the scroll progress,
captures the initial rotation and camera Z into `userData` when the guard
`!modelRef.current.userData.initialRotationX` holds (the JavaScript test is
falsy both when the slot is `undefined` and when it is `0`), and then
recomputes all the target values.  The gsap tweens started on lines
222-266 only move values toward these targets over later time; they are
modelled separately by `tweenValue`. -/
noncomputable def updateFromScroll (scrollY maxScroll : ℝ) (st : SceneState) : SceneState :=
  match st.modelRef, st.cameraRef with
  | some model, some camera =>
    let p := scrollProgress scrollY maxScroll
    let saved : Initials :=
      match model.userData with
      | none =>
        { initialRotationX := model.rotation.x
          initialRotationY := model.rotation.y
          initialRotationZ := model.rotation.z
          initialCameraZ := camera.position.z }
      | some i =>
        if i.initialRotationX = 0 then
          { initialRotationX := model.rotation.x
            initialRotationY := model.rotation.y
            initialRotationZ := model.rotation.z
            initialCameraZ := camera.position.z }
        else i
    { modelRef := some { model with userData := some saved }
      cameraRef := some camera
      targetValues :=
        computeTargets saved.initialRotationX saved.initialRotationY
          saved.initialRotationZ p }
  | _, _ => st

/-- Lines 166-173: one iteration of the `animate` loop.  Each frame calls
`updateFromScroll` and then renders; rendering does not change the modelled
state, so a frame is exactly one `updateFromScroll` step. -/
noncomputable def animateFrame (scrollY maxScroll : ℝ) (st : SceneState) : SceneState :=
  updateFromScroll scrollY maxScroll st

/-- The gsap `power2.out` easing curve (gsap's power2 is the cubic family):
`e(u) = 1 - (1 - u)^3`, mapping tween progress `u ∈ [0,1]` to eased
progress.  This models the `ease: "power2.out"` option of the tweens on
lines 218-266. -/
noncomputable def power2Out (u : ℝ) : ℝ := 1 - (1 - u) ^ 3

/-- The value of a `gsap.to` tween at eased time `u`: the start value
interpolated toward the target by the eased progress.  Models the tweens
started on lines 222-266 for each animated scalar. -/
noncomputable def tweenValue (start target u : ℝ) : ℝ :=
  start + (target - start) * power2Out u

/-- The state visible to the GLTF loader callbacks (lines 71-129): the
scene child count, the refs, the target values and the console error log. -/
structure LoadState where
  sceneChildren : ℕ
  modelRef : Option Model
  cameraRef : Option Camera
  targetValues : TargetValues
  errorLog : List String

/-- Lines 73-122: the success callback.  The loaded group gets scale
`(5,5,5)`, random rotation `r * 2π` and random positions from the random
draws `r1..r6 ∈ [0,1)`, is added to the scene, and `modelRef` is set.
(Material replacement does not touch the modelled fields.) -/
noncomputable def onGuitarLoaded (gltfScene : Model) (r1 r2 r3 r4 r5 r6 : ℝ)
    (st : LoadState) : LoadState :=
  let guitarModel : Model :=
    { gltfScene with
      scale := ⟨5, 5, 5⟩
      rotation := ⟨r1 * Real.pi * 2, r2 * Real.pi * 2, r3 * Real.pi * 2⟩
      position := ⟨(r4 - 0.5) * 4, (r5 - 0.5) * 4, (r6 - 0.5) * 2⟩ }
  { st with
    sceneChildren := st.sceneChildren + 1
    modelRef := some guitarModel }

/-- Lines 126-128: the error callback.  It only logs the error message to
the console; nothing else happens. -/
def onGuitarLoadError (msg : String) (st : LoadState) : LoadState :=
  { st with errorLog := st.errorLog ++ [msg] }

/-- A concrete model for witnesses: nonzero captured initial X rotation. -/
noncomputable def wModel : Model :=
  { rotation := ⟨1, 2, 3⟩
    position := ⟨0, 0, 0⟩
    scale := ⟨5, 5, 5⟩
    userData := some ⟨1, 2, 3, 1.8⟩ }

/-- A concrete camera for witnesses, at the initial position of line 149. -/
noncomputable def wCamera : Camera := ⟨⟨0, 0, 1.8⟩⟩

/-- A concrete loaded scene state for witnesses. -/
noncomputable def wState : SceneState :=
  { modelRef := some wModel
    cameraRef := some wCamera
    targetValues := initTargetValues }

end ThreeScene

namespace ThreeScene

/-- Helper: with `0 ≤ scrollY ≤ maxScroll` the scroll progress lies in
`[0, 1]`. -/
theorem scrollProgress_mem_unit (scrollY maxScroll : ℝ)
    (h0 : 0 ≤ scrollY) (h1 : scrollY ≤ maxScroll) :
    0 ≤ scrollProgress scrollY maxScroll ∧ scrollProgress scrollY maxScroll ≤ 1 := by
  unfold scrollProgress
  split_ifs with h
  · exact ⟨div_nonneg h0 h.le, (div_le_one h).mpr h1⟩
  · norm_num

/-- Helper: the distance of a tween value from its target is the initial
distance scaled by `(1 - u)^3`. -/
theorem tween_dist (s t u : ℝ) (hu : u ≤ 1) :
    |tweenValue s t u - t| = |s - t| * (1 - u) ^ 3 := by
  have h : tweenValue s t u - t = (s - t) * (1 - u) ^ 3 := by
    unfold tweenValue power2Out; ring
  rw [h, abs_mul, abs_of_nonneg (a := (1 - u) ^ 3) (pow_nonneg (by linarith) 3)]

/-- Helper: on a loaded state whose captured initial X rotation is nonzero,
`updateFromScroll` keeps the model (including its `userData`) and the
camera unchanged and recomputes the target values from the captured
initials and the current scroll progress. -/
theorem updateFromScroll_loaded (scrollY maxScroll : ℝ) (st : SceneState)
    (model : Model) (cam : Camera) (i : Initials)
    (hm : st.modelRef = some model) (hc : st.cameraRef = some cam)
    (hu : model.userData = some i) (hx : i.initialRotationX ≠ 0) :
    updateFromScroll scrollY maxScroll st =
      { modelRef := some model
        cameraRef := some cam
        targetValues :=
          computeTargets i.initialRotationX i.initialRotationY i.initialRotationZ
            (scrollProgress scrollY maxScroll) } := by
  have hmodel : ({ model with userData := some i } : Model) = model := by
    rw [← hu]
  unfold updateFromScroll
  rw [hm, hc]
  simp [hu, hx, hmodel]

/-- C1, counterexample: the scroll progress is NOT in `[0,1]` for every
`scrollY ≥ 0` and every `maxScroll`: at `scrollY = 2`, `maxScroll = 1`
(an overscrolled position past the bottom of the page) the code computes
`2/1 = 2 > 1` — line 181 has no clamp. -/
theorem scrollProgress_not_always_le_one :
    0 ≤ (2 : ℝ) ∧ ¬ scrollProgress 2 1 ≤ 1 := by
  constructor
  · norm_num
  · unfold scrollProgress; norm_num

/-- C1, amended: for every `0 ≤ scrollY ≤ maxScroll` (the scroll position
within the document range, which also covers every `maxScroll ≤ 0` case
via the `else 0` guard) the scroll progress lies in `[0, 1]`. -/
theorem scrollProgress_in_unit_interval (scrollY maxScroll : ℝ)
    (h0 : 0 ≤ scrollY) (h1 : scrollY ≤ maxScroll) :
    0 ≤ scrollProgress scrollY maxScroll ∧ scrollProgress scrollY maxScroll ≤ 1 :=
  scrollProgress_mem_unit scrollY maxScroll h0 h1

/-- Witness for the amended C1 at `scrollY = 1`, `maxScroll = 4`. -/
theorem scrollProgress_in_unit_interval_witness :
    0 ≤ scrollProgress 1 4 ∧ scrollProgress 1 4 ≤ 1 :=
  scrollProgress_in_unit_interval 1 4 (by norm_num) (by norm_num)

/-- C2: the rotation targets are affine in the scroll progress with the
coefficients 2π, 1.5π and π about X, Y and Z (lines 198-200). -/
theorem rotation_targets_affine (p rx0 ry0 rz0 : ℝ) :
    (computeTargets rx0 ry0 rz0 p).rotationX = rx0 + 2 * Real.pi * p ∧
    (computeTargets rx0 ry0 rz0 p).rotationY = ry0 + 1.5 * Real.pi * p ∧
    (computeTargets rx0 ry0 rz0 p).rotationZ = rz0 + Real.pi * p := by
  refine ⟨?_, ?_, ?_⟩ <;> simp [computeTargets] <;> ring

/-- C3: the camera-distance target equals `2 + p * (6 - 2)`, lies in
`[2, 6]` for `p ∈ [0, 1]`, and is monotone in the scroll progress
(lines 203-205). -/
theorem cameraZ_target_linear_monotone (rx ry rz p q : ℝ)
    (hp0 : 0 ≤ p) (hpq : p ≤ q) (hq1 : q ≤ 1) :
    (computeTargets rx ry rz p).cameraZ = 2 + p * (6 - 2) ∧
    2 ≤ (computeTargets rx ry rz p).cameraZ ∧
    (computeTargets rx ry rz p).cameraZ ≤ 6 ∧
    (computeTargets rx ry rz p).cameraZ ≤ (computeTargets rx ry rz q).cameraZ := by
  refine ⟨rfl, ?_, ?_, ?_⟩ <;> simp [computeTargets] <;> nlinarith

/-- Witness for C3 at the concrete scroll progresses 0 and 1. -/
theorem cameraZ_target_linear_monotone_witness :
    (computeTargets 0 0 0 0).cameraZ = 2 + 0 * (6 - 2) ∧
    2 ≤ (computeTargets 0 0 0 0).cameraZ ∧
    (computeTargets 0 0 0 0).cameraZ ≤ 6 ∧
    (computeTargets 0 0 0 0).cameraZ ≤ (computeTargets 0 0 0 1).cameraZ :=
  cameraZ_target_linear_monotone 0 0 0 0 1 (by norm_num) (by norm_num) (by norm_num)

/-- C4, counterexample: the hue target is NOT always in `[0,1]`: at
`scrollY = 2`, `maxScroll = 1` the scroll progress is `2` and the hue
target computed on line 212 is `2 * 0.8 = 1.6 > 1`. -/
theorem hue_not_always_le_one :
    ¬ (computeTargets 0 0 0 (scrollProgress 2 1)).hue ≤ 1 := by
  unfold computeTargets scrollProgress
  norm_num

/-- C4, amended: whenever the scroll position lies within the document
range (`0 ≤ scrollY ≤ maxScroll`), the hue target `0.8 * scrollProgress`
lies in `[0, 1]` (in fact in `[0, 0.8]`). -/
theorem hue_in_unit_interval (rx ry rz scrollY maxScroll : ℝ)
    (h0 : 0 ≤ scrollY) (h1 : scrollY ≤ maxScroll) :
    0 ≤ (computeTargets rx ry rz (scrollProgress scrollY maxScroll)).hue ∧
    (computeTargets rx ry rz (scrollProgress scrollY maxScroll)).hue ≤ 1 := by
  obtain ⟨hp0, hp1⟩ := scrollProgress_mem_unit scrollY maxScroll h0 h1
  unfold computeTargets
  constructor
  · nlinarith
  · nlinarith

/-- Witness for the amended C4 at `scrollY = 1`, `maxScroll = 4`. -/
theorem hue_in_unit_interval_witness :
    0 ≤ (computeTargets 0 0 0 (scrollProgress 1 4)).hue ∧
    (computeTargets 0 0 0 (scrollProgress 1 4)).hue ≤ 1 :=
  hue_in_unit_interval 0 0 0 1 4 (by norm_num) (by norm_num)

/-- C5: the position targets are `0.8 * sin(1.5πp)` in X and
`0.6 * cos(2πp)` in Y, the scale target is `5 + 1.5 * sin(1.5πp)`
(lines 208-215), and consequently the scale target lies in `[3.5, 6.5]`
and is strictly positive for every scroll progress. -/
theorem position_scale_targets (rx ry rz p : ℝ) :
    (computeTargets rx ry rz p).positionX = 0.8 * Real.sin (1.5 * Real.pi * p) ∧
    (computeTargets rx ry rz p).positionY = 0.6 * Real.cos (2 * Real.pi * p) ∧
    (computeTargets rx ry rz p).scale = 5 + 1.5 * Real.sin (1.5 * Real.pi * p) ∧
    3.5 ≤ (computeTargets rx ry rz p).scale ∧
    (computeTargets rx ry rz p).scale ≤ 6.5 ∧
    0 < (computeTargets rx ry rz p).scale := by
  have hx : p * Real.pi * 1.5 = 1.5 * Real.pi * p := by ring
  have hy : p * Real.pi * 2 = 2 * Real.pi * p := by ring
  have hs1 := Real.neg_one_le_sin (p * Real.pi * 1.5)
  have hs2 := Real.sin_le_one (p * Real.pi * 1.5)
  unfold computeTargets
  refine ⟨by rw [hx]; ring, by rw [hy]; ring, by rw [hx]; ring, ?_, ?_, ?_⟩ <;> nlinarith

/-- C6: when loading the guitar model fails, the error callback only logs:
the scene child count, the model reference (still null), the camera
reference and the target values are all unchanged (lines 126-128). -/
theorem load_error_only_logs (msg : String) (st : LoadState)
    (h : st.modelRef = none) :
    (onGuitarLoadError msg st).sceneChildren = st.sceneChildren ∧
    (onGuitarLoadError msg st).modelRef = none ∧
    (onGuitarLoadError msg st).cameraRef = st.cameraRef ∧
    (onGuitarLoadError msg st).targetValues = st.targetValues ∧
    (onGuitarLoadError msg st).errorLog = st.errorLog ++ [msg] := by
  unfold onGuitarLoadError
  exact ⟨rfl, h, rfl, rfl, rfl⟩

/-- Witness for C6 on the fresh (pre-load) state. -/
theorem load_error_only_logs_witness :
    (onGuitarLoadError "Error loading guitar model:"
        ⟨0, none, none, initTargetValues, []⟩).sceneChildren = 0 ∧
    (onGuitarLoadError "Error loading guitar model:"
        ⟨0, none, none, initTargetValues, []⟩).modelRef = none ∧
    (onGuitarLoadError "Error loading guitar model:"
        ⟨0, none, none, initTargetValues, []⟩).cameraRef = none ∧
    (onGuitarLoadError "Error loading guitar model:"
        ⟨0, none, none, initTargetValues, []⟩).targetValues = initTargetValues ∧
    (onGuitarLoadError "Error loading guitar model:"
        ⟨0, none, none, initTargetValues, []⟩).errorLog =
      [] ++ ["Error loading guitar model:"] :=
  load_error_only_logs "Error loading guitar model:"
    ⟨0, none, none, initTargetValues, []⟩ rfl

/-- C8: the scroll-progress computation never divides by zero: for every
`maxScroll ≤ 0` the guard on line 181 yields `0` without evaluating the
division, so the update is total over all window and document sizes. -/
theorem scrollProgress_guard_zero (scrollY maxScroll : ℝ)
    (h : maxScroll ≤ 0) : scrollProgress scrollY maxScroll = 0 := by
  unfold scrollProgress
  rw [if_neg (by linarith)]

/-- Witness for C8 at `scrollY = 5`, `maxScroll = 0` (page shorter than
the window). -/
theorem scrollProgress_guard_zero_witness : scrollProgress 5 0 = 0 :=
  scrollProgress_guard_zero 5 0 (by norm_num)

/-- C9: before the model has loaded (or before the camera ref is set),
`updateFromScroll` is a no-op: the whole modelled state — target values,
model transform, camera position — is returned unchanged (lines 176-177,
267-268). -/
theorem updateFromScroll_noop_unloaded (scrollY maxScroll : ℝ) (st : SceneState)
    (h : st.modelRef = none ∨ st.cameraRef = none) :
    updateFromScroll scrollY maxScroll st = st := by
  obtain ⟨mo, co, tv⟩ := st
  cases mo <;> cases co <;> simp_all [updateFromScroll]

/-- Witness for C9 on the initial state, where no model is loaded. -/
theorem updateFromScroll_noop_unloaded_witness :
    updateFromScroll 0 0 ⟨none, none, initTargetValues⟩ =
      (⟨none, none, initTargetValues⟩ : SceneState) :=
  updateFromScroll_noop_unloaded 0 0 ⟨none, none, initTargetValues⟩ (Or.inl rfl)

/-- C10: once the captured initial values are stored with a nonzero X
rotation, `updateFromScroll` never rewrites them: the model (with its
`userData`) is returned unchanged, and the rotation targets are offsets
from the same fixed initials (lines 184-195). -/
theorem initials_written_at_most_once (scrollY maxScroll : ℝ) (st : SceneState)
    (model : Model) (cam : Camera) (i : Initials)
    (hm : st.modelRef = some model) (hc : st.cameraRef = some cam)
    (hu : model.userData = some i) (hx : i.initialRotationX ≠ 0) :
    (updateFromScroll scrollY maxScroll st).modelRef = some model ∧
    (updateFromScroll scrollY maxScroll st).targetValues =
      computeTargets i.initialRotationX i.initialRotationY i.initialRotationZ
        (scrollProgress scrollY maxScroll) := by
  rw [updateFromScroll_loaded scrollY maxScroll st model cam i hm hc hu hx]
  exact ⟨rfl, rfl⟩

/-- Witness for C10 on a concrete loaded state with initials `(1,2,3)`. -/
theorem initials_written_at_most_once_witness :
    (updateFromScroll 0 0 wState).modelRef = some wModel ∧
    (updateFromScroll 0 0 wState).targetValues =
      computeTargets 1 2 3 (scrollProgress 0 0) :=
  initials_written_at_most_once 0 0 wState wModel wCamera ⟨1, 2, 3, 1.8⟩
    rfl rfl rfl (by norm_num)

/-- C7: each animation frame recomputes the target values from the current
scroll position, and each gsap tween keeps its animated value between its
start value and its target (never past the target) with distance to the
target non-increasing over tween time (never away from the target). -/
theorem frame_targets_and_tween_monotone (scrollY maxScroll : ℝ) (st : SceneState)
    (model : Model) (cam : Camera) (i : Initials)
    (hm : st.modelRef = some model) (hc : st.cameraRef = some cam)
    (hu : model.userData = some i) (hx : i.initialRotationX ≠ 0)
    (s t u v : ℝ) (h0u : 0 ≤ u) (huv : u ≤ v) (hv1 : v ≤ 1) :
    (animateFrame scrollY maxScroll st).targetValues =
      computeTargets i.initialRotationX i.initialRotationY i.initialRotationZ
        (scrollProgress scrollY maxScroll) ∧
    min s t ≤ tweenValue s t u ∧
    tweenValue s t u ≤ max s t ∧
    |tweenValue s t v - t| ≤ |tweenValue s t u - t| := by
  have hu1 : u ≤ 1 := le_trans huv hv1
  have hcube0 : 0 ≤ (1 - u) ^ 3 := pow_nonneg (by linarith) 3
  have hcube1 : (1 - u) ^ 3 ≤ 1 := pow_le_one₀ (by linarith) (by linarith)
  refine ⟨?_, ?_, ?_, ?_⟩
  · unfold animateFrame
    rw [updateFromScroll_loaded scrollY maxScroll st model cam i hm hc hu hx]
  · unfold tweenValue power2Out
    rcases le_total s t with h | h
    · rw [min_eq_left h]; nlinarith
    · rw [min_eq_right h]; nlinarith
  · unfold tweenValue power2Out
    rcases le_total s t with h | h
    · rw [max_eq_right h]; nlinarith
    · rw [max_eq_left h]; nlinarith
  · rw [tween_dist s t v hv1, tween_dist s t u hu1]
    exact mul_le_mul_of_nonneg_left
      (pow_le_pow_left₀ (by linarith) (by linarith) 3) (abs_nonneg _)

/-- Witness for C7 on the concrete loaded state, with a tween from 0
toward 1 sampled at times 0 and 1. -/
theorem frame_targets_and_tween_monotone_witness :
    (animateFrame 0 0 wState).targetValues =
      computeTargets 1 2 3 (scrollProgress 0 0) ∧
    min 0 1 ≤ tweenValue 0 1 0 ∧
    tweenValue 0 1 0 ≤ max 0 1 ∧
    |tweenValue 0 1 1 - 1| ≤ |tweenValue 0 1 0 - 1| :=
  frame_targets_and_tween_monotone 0 0 wState wModel wCamera ⟨1, 2, 3, 1.8⟩
    rfl rfl rfl (by norm_num) 0 1 0 1 (by norm_num) (by norm_num) (by norm_num)

end ThreeScene
